import Mathlib

/-
  Shallow embedding of the two Azure Functions HTTP handlers of this
  repository:
    src/fc-learn/src/functions/blobStorageApi.ts   (blob endpoint)
    src/unnamed/part_000                           (table endpoint)

  Each handler is embedded as a pure function from the request, the
  configuration value and a per-request snapshot of the storage SDK
  behaviour (an oracle giving each SDK call's result) to the HTTP
  response together with the list of storage operations attempted.
  A thrown SDK error is an `Except.error`; the outer try/catch of each
  dispatcher is the final `match` that converts it to a 500 response.
-/

namespace AzurePlayground

/-- JS `String.prototype.toUpperCase()` on the ASCII method names the
dispatchers compare against. -/
def toUpperCase (s : String) : String := String.mk (s.data.map Char.toUpper)

/-- JS truthiness of a `string | null | undefined` value: `null`,
`undefined` and the empty string are falsy. -/
def jsTruthy : Option String → Bool
  | none => false
  | some s => s != ""

/-- JS `x || d` on a `string | null | undefined` value: yields `d` when
`x` is null, undefined or the empty string. -/
def jsOr : Option String → String → String
  | none, d => d
  | some s, d => if s == "" then d else s

/-- JS `x || d` on a `number | undefined` value: yields `d` when `x` is
undefined or `0`. -/
def jsNumOr : Option Int → Int → Int
  | none, d => d
  | some n, d => if n == 0 then d else n

/-- The JSON values the handlers serialize with `JSON.stringify`. -/
inductive Json where
  | str (s : String)
  | num (n : Int)
  | arr (xs : List Json)
  | obj (fields : List (String × Json))
deriving Repr

/-- A JS object field holding a possibly-undefined string:
`JSON.stringify` omits the field when the value is undefined. -/
def optField (k : String) : Option String → List (String × Json)
  | none => []
  | some v => [(k, Json.str v)]

/-- Whether a JSON value is an object with an `error` or `message`
field. -/
def Json.hasErrorOrMessage : Json → Bool
  | .obj fields => fields.any fun p => p.1 == "error" || p.1 == "message"
  | _ => false

/-- An HTTP response body: a JSON document, or raw bytes (only the blob
download path returns bytes). -/
inductive Body where
  | json (j : Json)
  | bytes (b : List Nat)
deriving Repr

/-- The `HttpResponseInit` shape the handlers return. -/
structure HttpResponse where
  status : Nat
  headers : List (String × String) := []
  body : Body
deriving Repr

/-- A storage SDK error as the handlers observe it: an optional
`statusCode` (compared against 404 with `===`) and a `message`. -/
structure StoreErr where
  statusCode : Option Nat
  message : String
deriving Repr, DecidableEq

end AzurePlayground

namespace AzurePlayground.TableApi

/-- The `UserEntity` record built by the POST/PUT handlers.  `name` and
`email` are typed `string` in the source interface, but the PUT handler
can build the record with them undefined, so they are optional here. -/
structure UserEntity where
  partitionKey : String
  rowKey : String
  name : Option String
  email : Option String
  age : Int
deriving Repr, DecidableEq

/-- `JSON.stringify` of a user entity, with undefined fields omitted. -/
def userEntityToJson (e : UserEntity) : Json :=
  .obj ([("partitionKey", Json.str e.partitionKey), ("rowKey", Json.str e.rowKey)]
    ++ optField "name" e.name
    ++ optField "email" e.email
    ++ [("age", Json.num e.age)])

/-- The parsed JSON request body destructured by the POST/PUT handlers;
`none` is an absent (undefined) field. -/
structure TableBody where
  userId : Option String := none
  department : Option String := none
  name : Option String := none
  email : Option String := none
  age : Option Int := none
deriving Repr, DecidableEq

/-- A table-endpoint HTTP request: method, the `userId` and `department`
query parameters (`request.query.get` returns `null` when absent) and
the parsed JSON body. -/
structure TableRequest where
  method : String
  userId : Option String := none
  department : Option String := none
  body : TableBody := {}
deriving Repr, DecidableEq

/-- A storage operation attempted by the table endpoint. -/
inductive TableOp where
  | createTable
  | getEntity (partitionKey rowKey : String)
  | listEntities (partitionKey : String)
  | createEntity (e : UserEntity)
  | upsertEntityReplace (e : UserEntity)
  | deleteEntity (partitionKey rowKey : String)
deriving Repr, DecidableEq

/-- Per-request snapshot of the `TableClient` behaviour: the result each
SDK call would produce on this request. -/
structure TableStore where
  createTable : Except StoreErr Unit
  getEntity : String → String → Except StoreErr UserEntity
  listEntities : String → List UserEntity
  createEntity : UserEntity → Except StoreErr Unit
  upsertEntity : UserEntity → Except StoreErr Unit
  deleteEntity : String → String → Except StoreErr Unit

/-- The record literal both the POST and the PUT handler build from the
destructured body: `{partitionKey: department, rowKey: userId, name,
email, age: age || 0}` with `department = 'default'` as destructuring
default. -/
def buildUserEntity (b : TableBody) : UserEntity :=
  { partitionKey := b.department.getD "default"
    rowKey := b.userId.getD ""
    name := b.name
    email := b.email
    age := jsNumOr b.age 0 }

/-- Table GET: fetch one entity when `userId` is truthy, else list the
partition. -/
def handleGetRequest (request : TableRequest) (store : TableStore) :
    Except StoreErr HttpResponse × List TableOp :=
  let userId := request.userId
  let department := jsOr request.department "default"
  if jsTruthy userId then
    let uid := userId.getD ""
    match store.getEntity department uid with
    | .ok entity =>
        (.ok { status := 200, body := .json (userEntityToJson entity) },
         [.getEntity department uid])
    | .error error =>
        if error.statusCode == some 404 then
          (.ok { status := 404,
                 body := .json (.obj [("error", .str "User not found")]) },
           [.getEntity department uid])
        else (.error error, [.getEntity department uid])
  else
    let users := store.listEntities department
    (.ok { status := 200,
           body := .json (.obj [("users", .arr (users.map userEntityToJson)),
                                ("count", .num users.length)]) },
     [.listEntities department])

/-- Table POST: require truthy `userId`, `name`, `email`, else 400;
otherwise create the entity. -/
def handlePostRequest (request : TableRequest) (store : TableStore) :
    Except StoreErr HttpResponse × List TableOp :=
  let b := request.body
  if !jsTruthy b.userId || !jsTruthy b.name || !jsTruthy b.email then
    (.ok { status := 400,
           body := .json (.obj [("error", .str "Missing required fields: userId, name, email")]) },
     [])
  else
    let userEntity := buildUserEntity b
    match store.createEntity userEntity with
    | .ok _ =>
        (.ok { status := 201,
               body := .json (.obj [("message", .str "User created successfully"),
                                    ("user", userEntityToJson userEntity)]) },
         [.createEntity userEntity])
    | .error error => (.error error, [.createEntity userEntity])

/-- Table PUT: require truthy `userId` only, else 400; otherwise
full-replace upsert of the (possibly partially undefined) entity. -/
def handlePutRequest (request : TableRequest) (store : TableStore) :
    Except StoreErr HttpResponse × List TableOp :=
  let b := request.body
  if !jsTruthy b.userId then
    (.ok { status := 400,
           body := .json (.obj [("error", .str "Missing required field: userId")]) },
     [])
  else
    let userEntity := buildUserEntity b
    match store.upsertEntity userEntity with
    | .ok _ =>
        (.ok { status := 200,
               body := .json (.obj [("message", .str "User updated successfully"),
                                    ("user", userEntityToJson userEntity)]) },
         [.upsertEntityReplace userEntity])
    | .error error => (.error error, [.upsertEntityReplace userEntity])

/-- Table DELETE: require truthy `userId` query parameter, else 400;
delete, translating a 404-coded SDK error to HTTP 404. -/
def handleDeleteRequest (request : TableRequest) (store : TableStore) :
    Except StoreErr HttpResponse × List TableOp :=
  let userId := request.userId
  let department := jsOr request.department "default"
  if !jsTruthy userId then
    (.ok { status := 400,
           body := .json (.obj [("error", .str "Missing required parameter: userId")]) },
     [])
  else
    let uid := userId.getD ""
    match store.deleteEntity department uid with
    | .ok _ =>
        (.ok { status := 200,
               body := .json (.obj [("message", .str "User deleted successfully")]) },
         [.deleteEntity department uid])
    | .error error =>
        if error.statusCode == some 404 then
          (.ok { status := 404,
                 body := .json (.obj [("error", .str "User not found")]) },
           [.deleteEntity department uid])
        else (.error error, [.deleteEntity department uid])

/-- The table endpoint dispatcher `tableStorageApi`: configuration
guard, table-creation guard whose result is swallowed, dispatch on the
upper-cased method, and the outer catch converting a thrown error into
a 500 response.  Returns the response and the list of storage
operations attempted. -/
def tableStorageApi (connectionString : Option String)
    (store : TableStore) (request : TableRequest) :
    HttpResponse × List TableOp :=
  if !jsTruthy connectionString then
    ({ status := 500,
       body := .json (.obj [("error", .str "Azure Storage connection string not configured")]) },
     [])
  else
    let _ := store.createTable
    let method := toUpperCase request.method
    let dispatched : Except StoreErr HttpResponse × List TableOp :=
      if method == "GET" then handleGetRequest request store
      else if method == "POST" then handlePostRequest request store
      else if method == "PUT" then handlePutRequest request store
      else if method == "DELETE" then handleDeleteRequest request store
      else (.ok { status := 405,
                  body := .json (.obj [("error", .str "Method not allowed")]) }, [])
    let response := match dispatched.1 with
      | .ok r => r
      | .error error =>
          { status := 500,
            body := .json (.obj [("error", .str "Internal server error"),
                                 ("details", .str error.message)]) }
    (response, .createTable :: dispatched.2)

/-- Abstract contents of the backing table: a partial map from
(partitionKey, rowKey) to the stored entity. -/
def TableState := String × String → Option UserEntity

/-- Modelled from the spec: the effect of a successful storage operation
on the table contents (the `@azure/data-tables` client is not part of
this repository).  The spec states upsert in `Replace` mode replaces
the record wholesale — full-replace semantics, not a merge — and that
create fails rather than overwrite an existing key. -/
def applyTableOp (st : TableState) : TableOp → TableState
  | .upsertEntityReplace e =>
      fun k => if k = (e.partitionKey, e.rowKey) then some e else st k
  | .deleteEntity pk rk => fun k => if k = (pk, rk) then none else st k
  | .createEntity e =>
      fun k => if k = (e.partitionKey, e.rowKey) then
          (match st k with | none => some e | some old => some old)
        else st k
  | _ => st

/-- Apply a list of successful storage operations in order. -/
def applyTableOps (st : TableState) : List TableOp → TableState
  | [] => st
  | op :: ops => applyTableOps (applyTableOp st op) ops

end AzurePlayground.TableApi

namespace AzurePlayground.BlobApi

/-- The part of the SDK download response the handler inspects: the
optional readable stream, modelled as the list of byte chunks it would
yield. -/
structure DownloadResponse where
  readableStreamBody : Option (List (List Nat))

/-- The blob properties the handler reads after a download. -/
structure BlobProperties where
  contentType : Option String := none
  contentLength : Option Nat := none
deriving Repr, DecidableEq

/-- The part of the SDK upload response serialized into the 201 body.
Optional fields are omitted by `JSON.stringify` when undefined. -/
structure UploadResponse where
  requestId : Option String := none
  etag : Option String := none
  lastModified : Option String := none
deriving Repr, DecidableEq

/-- The part of the SDK delete response serialized into the 200 body. -/
structure DeleteResponse where
  requestId : Option String := none
deriving Repr, DecidableEq

/-- One item yielded by `listBlobsFlat`, with the properties the listing
handler projects out. -/
structure BlobItem where
  name : String
  size : Option Nat := none
  lastModified : Option String := none
  contentType : Option String := none
deriving Repr, DecidableEq

/-- The `{name, size, lastModified, contentType}` object the listing
builds for one blob; undefined properties are omitted by
`JSON.stringify`. -/
def blobItemToJson (b : BlobItem) : Json :=
  .obj ([("name", Json.str b.name)]
    ++ (match b.size with | none => [] | some n => [("size", Json.num n)])
    ++ optField "lastModified" b.lastModified
    ++ optField "contentType" b.contentType)

/-- A blob-endpoint HTTP request: method, the `blobName` query parameter
(`null` when absent), the `content-type` header and the raw body
bytes. -/
structure BlobRequest where
  method : String
  blobName : Option String := none
  contentType : Option String := none
  body : List Nat := []
deriving Repr, DecidableEq

/-- A storage operation attempted by the blob endpoint. -/
inductive BlobOp where
  | createIfNotExists
  | download (blobName : String)
  | getProperties (blobName : String)
  | listBlobsFlat
  | upload (blobName : String) (body : List Nat) (contentType : String)
  | delete (blobName : String)
deriving Repr, DecidableEq

/-- Per-request snapshot of the container client behaviour: the result
each SDK call would produce on this request.  `url` is the resolved
`blockBlobClient.url` for a blob name. -/
structure BlobStore where
  createIfNotExists : Except StoreErr Unit
  download : String → Except StoreErr DownloadResponse
  getProperties : String → Except StoreErr BlobProperties
  listBlobsFlat : List BlobItem
  upload : String → List Nat → String → Except StoreErr UploadResponse
  delete : String → Except StoreErr DeleteResponse
  url : String → String

/-- Blob GET: download the named blob when `blobName` is truthy
(404 when the stream body is missing or the SDK error carries
statusCode 404, the error propagating otherwise), else list the
container. -/
def handleGetRequest (request : BlobRequest) (store : BlobStore) :
    Except StoreErr HttpResponse × List BlobOp :=
  let blobName := request.blobName
  if jsTruthy blobName then
    let bn := blobName.getD ""
    match store.download bn with
    | .error error =>
        if error.statusCode == some 404 then
          (.ok { status := 404,
                 body := .json (.obj [("error", .str "Blob not found")]) },
           [.download bn])
        else (.error error, [.download bn])
    | .ok downloadResponse =>
      match downloadResponse.readableStreamBody with
      | none =>
          (.ok { status := 404,
                 body := .json (.obj [("error", .str "Blob not found or empty")]) },
           [.download bn])
      | some chunks =>
        let content := chunks.flatten
        match store.getProperties bn with
        | .error error =>
            if error.statusCode == some 404 then
              (.ok { status := 404,
                     body := .json (.obj [("error", .str "Blob not found")]) },
               [.download bn, .getProperties bn])
            else (.error error, [.download bn, .getProperties bn])
        | .ok properties =>
            (.ok { status := 200,
                   headers := [("Content-Type", jsOr properties.contentType "application/octet-stream"),
                               ("Content-Length", jsOr (properties.contentLength.map toString) "0")],
                   body := .bytes content },
             [.download bn, .getProperties bn])
  else
    let blobs := store.listBlobsFlat
    (.ok { status := 200,
           body := .json (.obj [("blobs", .arr (blobs.map blobItemToJson)),
                                ("count", .num blobs.length)]) },
     [.listBlobsFlat])

/-- Blob POST: require a truthy `blobName`, else 400; otherwise upload
the request body with the request content-type (default
`application/octet-stream`). -/
def handlePostRequest (request : BlobRequest) (store : BlobStore) :
    Except StoreErr HttpResponse × List BlobOp :=
  let blobName := request.blobName
  let contentType := jsOr request.contentType "application/octet-stream"
  if !jsTruthy blobName then
    (.ok { status := 400,
           body := .json (.obj [("error", .str "Missing required parameter: blobName")]) },
     [])
  else
    let bn := blobName.getD ""
    match store.upload bn request.body contentType with
    | .ok uploadResponse =>
        (.ok { status := 201,
               body := .json (.obj ([("message", .str "Blob uploaded successfully"),
                                     ("blobName", .str bn)]
                 ++ optField "requestId" uploadResponse.requestId
                 ++ optField "etag" uploadResponse.etag
                 ++ optField "lastModified" uploadResponse.lastModified
                 ++ [("url", .str (store.url bn))])) },
         [.upload bn request.body contentType])
    | .error error => (.error error, [.upload bn request.body contentType])

/-- Blob DELETE: require a truthy `blobName`, else 400; delete
(snapshots included), translating a 404-coded SDK error to HTTP 404. -/
def handleDeleteRequest (request : BlobRequest) (store : BlobStore) :
    Except StoreErr HttpResponse × List BlobOp :=
  let blobName := request.blobName
  if !jsTruthy blobName then
    (.ok { status := 400,
           body := .json (.obj [("error", .str "Missing required parameter: blobName")]) },
     [])
  else
    let bn := blobName.getD ""
    match store.delete bn with
    | .ok deleteResponse =>
        (.ok { status := 200,
               body := .json (.obj ([("message", .str "Blob deleted successfully"),
                                     ("blobName", .str bn)]
                 ++ optField "requestId" deleteResponse.requestId)) },
         [.delete bn])
    | .error error =>
        if error.statusCode == some 404 then
          (.ok { status := 404,
                 body := .json (.obj [("error", .str "Blob not found")]) },
           [.delete bn])
        else (.error error, [.delete bn])

/-- The blob endpoint dispatcher `blobStorageApi`: configuration guard,
container-creation guard whose result is swallowed, dispatch on the
upper-cased method, and the outer catch converting a thrown error into
a 500 response. -/
def blobStorageApi (connectionString : Option String)
    (store : BlobStore) (request : BlobRequest) :
    HttpResponse × List BlobOp :=
  if !jsTruthy connectionString then
    ({ status := 500,
       body := .json (.obj [("error", .str "Azure Storage connection string not configured")]) },
     [])
  else
    let _ := store.createIfNotExists
    let method := toUpperCase request.method
    let dispatched : Except StoreErr HttpResponse × List BlobOp :=
      if method == "GET" then handleGetRequest request store
      else if method == "POST" then handlePostRequest request store
      else if method == "DELETE" then handleDeleteRequest request store
      else (.ok { status := 405,
                  body := .json (.obj [("error", .str "Method not allowed")]) }, [])
    let response := match dispatched.1 with
      | .ok r => r
      | .error error =>
          { status := 500,
            body := .json (.obj [("error", .str "Internal server error"),
                                 ("details", .str error.message)]) }
    (response, .createIfNotExists :: dispatched.2)

end AzurePlayground.BlobApi

namespace AzurePlayground

/-- A table store snapshot on which every SDK call succeeds. -/
def tableStoreOk : TableApi.TableStore :=
  { createTable := .ok ()
    getEntity := fun pk rk => .ok ⟨pk, rk, some "N", some "E", 1⟩
    listEntities := fun _ => []
    createEntity := fun _ => .ok ()
    upsertEntity := fun _ => .ok ()
    deleteEntity := fun _ _ => .ok () }

/-- A table store snapshot on which every SDK call throws an error whose
`statusCode` is 404. -/
def tableStore404 : TableApi.TableStore :=
  { createTable := .error ⟨some 404, "Not Found"⟩
    getEntity := fun _ _ => .error ⟨some 404, "Not Found"⟩
    listEntities := fun _ => []
    createEntity := fun _ => .error ⟨some 404, "Not Found"⟩
    upsertEntity := fun _ => .error ⟨some 404, "Not Found"⟩
    deleteEntity := fun _ _ => .error ⟨some 404, "Not Found"⟩ }

/-- A table store snapshot on which every SDK call throws an error whose
`statusCode` is not 404. -/
def tableStoreBoom : TableApi.TableStore :=
  { createTable := .error ⟨some 503, "boom"⟩
    getEntity := fun _ _ => .error ⟨some 503, "boom"⟩
    listEntities := fun _ => []
    createEntity := fun _ => .error ⟨some 503, "boom"⟩
    upsertEntity := fun _ => .error ⟨some 503, "boom"⟩
    deleteEntity := fun _ _ => .error ⟨some 503, "boom"⟩ }

/-- A blob store snapshot on which every SDK call succeeds. -/
def blobStoreOk : BlobApi.BlobStore :=
  { createIfNotExists := .ok ()
    download := fun _ => .ok ⟨some [[1, 2], [3]]⟩
    getProperties := fun _ => .ok {}
    listBlobsFlat := []
    upload := fun _ _ _ => .ok {}
    delete := fun _ => .ok {}
    url := fun bn => "https://example/" ++ bn }

/-- A blob store snapshot on which every SDK call throws an error whose
`statusCode` is 404. -/
def blobStore404 : BlobApi.BlobStore :=
  { createIfNotExists := .error ⟨some 404, "Not Found"⟩
    download := fun _ => .error ⟨some 404, "Not Found"⟩
    getProperties := fun _ => .error ⟨some 404, "Not Found"⟩
    listBlobsFlat := []
    upload := fun _ _ _ => .error ⟨some 404, "Not Found"⟩
    delete := fun _ => .error ⟨some 404, "Not Found"⟩
    url := fun bn => "https://example/" ++ bn }

/-- A blob store snapshot on which every SDK call throws an error whose
`statusCode` is not 404. -/
def blobStoreBoom : BlobApi.BlobStore :=
  { createIfNotExists := .error ⟨some 503, "boom"⟩
    download := fun _ => .error ⟨some 503, "boom"⟩
    getProperties := fun _ => .error ⟨some 503, "boom"⟩
    listBlobsFlat := []
    upload := fun _ _ _ => .error ⟨some 503, "boom"⟩
    delete := fun _ => .error ⟨some 503, "boom"⟩
    url := fun bn => "https://example/" ++ bn }

/-- A blob store snapshot whose download succeeds but yields no readable
stream body. -/
def blobStoreNoStream : BlobApi.BlobStore :=
  { createIfNotExists := .ok ()
    download := fun _ => .ok ⟨none⟩
    getProperties := fun _ => .ok {}
    listBlobsFlat := []
    upload := fun _ _ _ => .ok {}
    delete := fun _ => .ok {}
    url := fun bn => "https://example/" ++ bn }

/-- C6: with the storage connection credential absent from the
environment, every request to either endpoint — any method, any
parameters, any store behaviour — returns the 500 "not configured"
error body and attempts no storage operation at all. -/
theorem missing_credential_returns_500_no_store_call
    (bs : BlobApi.BlobStore) (ts : TableApi.TableStore)
    (breq : BlobApi.BlobRequest) (treq : TableApi.TableRequest) :
    BlobApi.blobStorageApi none bs breq =
      ({ status := 500,
         body := .json (.obj [("error", .str "Azure Storage connection string not configured")]) }, [])
    ∧ TableApi.tableStorageApi none ts treq =
      ({ status := 500,
         body := .json (.obj [("error", .str "Azure Storage connection string not configured")]) }, []) :=
  ⟨rfl, rfl⟩

/-- C1: a blob POST or DELETE whose `blobName` query parameter is
absent, a table POST whose body lacks `userId`, `name` or `email`, a
table PUT whose body lacks `userId`, and a table DELETE whose `userId`
query parameter is absent, all return 400, and the request attempts no
storage operation beyond the mandatory container/table existence guard
that precedes dispatch on every request. -/
theorem missing_required_field_returns_400_without_store_call
    (cfg : String) (hc : cfg ≠ "")
    (bs : BlobApi.BlobStore) (ts : TableApi.TableStore)
    (breq : BlobApi.BlobRequest) (treq : TableApi.TableRequest) :
    (toUpperCase breq.method = "POST" → breq.blobName = none →
      (BlobApi.blobStorageApi (some cfg) bs breq).1.status = 400 ∧
      (BlobApi.blobStorageApi (some cfg) bs breq).2 = [.createIfNotExists]) ∧
    (toUpperCase breq.method = "DELETE" → breq.blobName = none →
      (BlobApi.blobStorageApi (some cfg) bs breq).1.status = 400 ∧
      (BlobApi.blobStorageApi (some cfg) bs breq).2 = [.createIfNotExists]) ∧
    (toUpperCase treq.method = "POST" →
      treq.body.userId = none ∨ treq.body.name = none ∨ treq.body.email = none →
      (TableApi.tableStorageApi (some cfg) ts treq).1.status = 400 ∧
      (TableApi.tableStorageApi (some cfg) ts treq).2 = [.createTable]) ∧
    (toUpperCase treq.method = "PUT" → treq.body.userId = none →
      (TableApi.tableStorageApi (some cfg) ts treq).1.status = 400 ∧
      (TableApi.tableStorageApi (some cfg) ts treq).2 = [.createTable]) ∧
    (toUpperCase treq.method = "DELETE" → treq.userId = none →
      (TableApi.tableStorageApi (some cfg) ts treq).1.status = 400 ∧
      (TableApi.tableStorageApi (some cfg) ts treq).2 = [.createTable]) := by
  refine ⟨fun hm hb => ?_, fun hm hb => ?_, fun hm hmiss => ?_, fun hm hb => ?_,
    fun hm hb => ?_⟩
  · simp [BlobApi.blobStorageApi, BlobApi.handlePostRequest, hm, hb, hc, jsTruthy]
  · simp [BlobApi.blobStorageApi, BlobApi.handleDeleteRequest, hm, hb, hc, jsTruthy]
  · rcases hmiss with h | h | h <;>
      simp [TableApi.tableStorageApi, TableApi.handlePostRequest, hm, h, hc, jsTruthy]
  · simp [TableApi.tableStorageApi, TableApi.handlePutRequest, hm, hb, hc, jsTruthy]
  · simp [TableApi.tableStorageApi, TableApi.handleDeleteRequest, hm, hb, hc, jsTruthy]

/-- Witness for C1 at concrete requests with the missing parameters. -/
theorem missing_required_field_returns_400_without_store_call_witness :
    ((BlobApi.blobStorageApi (some "c") blobStoreOk { method := "POST" }).1.status = 400 ∧
     (BlobApi.blobStorageApi (some "c") blobStoreOk { method := "POST" }).2 = [.createIfNotExists]) ∧
    ((BlobApi.blobStorageApi (some "c") blobStoreOk { method := "DELETE" }).1.status = 400 ∧
     (BlobApi.blobStorageApi (some "c") blobStoreOk { method := "DELETE" }).2 = [.createIfNotExists]) ∧
    ((TableApi.tableStorageApi (some "c") tableStoreOk { method := "POST" }).1.status = 400 ∧
     (TableApi.tableStorageApi (some "c") tableStoreOk { method := "POST" }).2 = [.createTable]) ∧
    ((TableApi.tableStorageApi (some "c") tableStoreOk { method := "PUT" }).1.status = 400 ∧
     (TableApi.tableStorageApi (some "c") tableStoreOk { method := "PUT" }).2 = [.createTable]) ∧
    ((TableApi.tableStorageApi (some "c") tableStoreOk { method := "DELETE" }).1.status = 400 ∧
     (TableApi.tableStorageApi (some "c") tableStoreOk { method := "DELETE" }).2 = [.createTable]) :=
  ⟨(missing_required_field_returns_400_without_store_call "c" (by decide) blobStoreOk tableStoreOk
      { method := "POST" } { method := "POST" }).1 rfl rfl,
   (missing_required_field_returns_400_without_store_call "c" (by decide) blobStoreOk tableStoreOk
      { method := "DELETE" } { method := "POST" }).2.1 rfl rfl,
   (missing_required_field_returns_400_without_store_call "c" (by decide) blobStoreOk tableStoreOk
      { method := "POST" } { method := "POST" }).2.2.1 rfl (Or.inl rfl),
   (missing_required_field_returns_400_without_store_call "c" (by decide) blobStoreOk tableStoreOk
      { method := "POST" } { method := "PUT" }).2.2.2.1 rfl rfl,
   (missing_required_field_returns_400_without_store_call "c" (by decide) blobStoreOk tableStoreOk
      { method := "POST" } { method := "DELETE" }).2.2.2.2 rfl rfl⟩

/-- C7: the HTTP response of either endpoint is identical whether the
guard-step backing-store creation (container `createIfNotExists`, table
`createTable`) succeeds or throws: two runs differing only in the
creation outcome produce equal responses. -/
theorem creation_outcome_noninterference
    (cfg : Option String)
    (bs : BlobApi.BlobStore) (g₁ g₂ : Except StoreErr Unit)
    (ts : TableApi.TableStore) (t₁ t₂ : Except StoreErr Unit)
    (breq : BlobApi.BlobRequest) (treq : TableApi.TableRequest) :
    (BlobApi.blobStorageApi cfg { bs with createIfNotExists := g₁ } breq).1 =
      (BlobApi.blobStorageApi cfg { bs with createIfNotExists := g₂ } breq).1
    ∧ (TableApi.tableStorageApi cfg { ts with createTable := t₁ } treq).1 =
      (TableApi.tableStorageApi cfg { ts with createTable := t₂ } treq).1 := by
  cases bs
  cases ts
  exact ⟨rfl, rfl⟩

/-- C9: supplying a required parameter or field as the empty string
(`blobName=""` on blob POST/DELETE; `userId`, `name` or `email` `""` in
a table POST body; `userId=""` in table PUT/DELETE) yields 400 exactly
as if the value were absent, because the presence checks test JS
falsiness. -/
theorem empty_string_required_field_returns_400
    (bs : BlobApi.BlobStore) (ts : TableApi.TableStore)
    (breq : BlobApi.BlobRequest) (treq : TableApi.TableRequest) :
    (BlobApi.handlePostRequest { breq with blobName := some "" } bs =
       BlobApi.handlePostRequest { breq with blobName := none } bs ∧
     (BlobApi.handlePostRequest { breq with blobName := some "" } bs).1 =
       .ok { status := 400,
             body := .json (.obj [("error", .str "Missing required parameter: blobName")]) }) ∧
    (BlobApi.handleDeleteRequest { breq with blobName := some "" } bs =
       BlobApi.handleDeleteRequest { breq with blobName := none } bs ∧
     (BlobApi.handleDeleteRequest { breq with blobName := some "" } bs).1 =
       .ok { status := 400,
             body := .json (.obj [("error", .str "Missing required parameter: blobName")]) }) ∧
    (TableApi.handlePostRequest { treq with body := { treq.body with userId := some "" } } ts =
       TableApi.handlePostRequest { treq with body := { treq.body with userId := none } } ts ∧
     (TableApi.handlePostRequest { treq with body := { treq.body with userId := some "" } } ts).1 =
       .ok { status := 400,
             body := .json (.obj [("error", .str "Missing required fields: userId, name, email")]) }) ∧
    (TableApi.handlePostRequest { treq with body := { treq.body with name := some "" } } ts =
       TableApi.handlePostRequest { treq with body := { treq.body with name := none } } ts ∧
     (TableApi.handlePostRequest { treq with body := { treq.body with name := some "" } } ts).1 =
       .ok { status := 400,
             body := .json (.obj [("error", .str "Missing required fields: userId, name, email")]) }) ∧
    (TableApi.handlePostRequest { treq with body := { treq.body with email := some "" } } ts =
       TableApi.handlePostRequest { treq with body := { treq.body with email := none } } ts ∧
     (TableApi.handlePostRequest { treq with body := { treq.body with email := some "" } } ts).1 =
       .ok { status := 400,
             body := .json (.obj [("error", .str "Missing required fields: userId, name, email")]) }) ∧
    (TableApi.handlePutRequest { treq with body := { treq.body with userId := some "" } } ts =
       TableApi.handlePutRequest { treq with body := { treq.body with userId := none } } ts ∧
     (TableApi.handlePutRequest { treq with body := { treq.body with userId := some "" } } ts).1 =
       .ok { status := 400,
             body := .json (.obj [("error", .str "Missing required field: userId")]) }) ∧
    (TableApi.handleDeleteRequest { treq with userId := some "" } ts =
       TableApi.handleDeleteRequest { treq with userId := none } ts ∧
     (TableApi.handleDeleteRequest { treq with userId := some "" } ts).1 =
       .ok { status := 400,
             body := .json (.obj [("error", .str "Missing required parameter: userId")]) }) := by
  obtain ⟨m, bn, ct, b⟩ := breq
  obtain ⟨tm, tu, td, tb⟩ := treq
  obtain ⟨bu, bd, bnm, be, ba⟩ := tb
  refine ⟨⟨rfl, rfl⟩, ⟨rfl, rfl⟩, ⟨?_, ?_⟩, ⟨?_, ?_⟩, ⟨?_, ?_⟩, ⟨?_, ?_⟩, ⟨rfl, rfl⟩⟩ <;>
    simp [TableApi.handlePostRequest, TableApi.handlePutRequest, jsTruthy]

theorem jsTruthy_some_of_ne (s : String) (h : s ≠ "") : jsTruthy (some s) = true := by
  simp [jsTruthy, h]

/-- C3: a table POST with body `{userId:"u1", name:"A",
email:"a@x.com"}` (department and age omitted) returns 201 and the
created record is exactly `{partitionKey:"default", rowKey:"u1",
name:"A", email:"a@x.com", age:0}`: department defaults to `"default"`
and age to 0. -/
theorem table_post_defaults_department_and_age
    (cfg : String) (hc : cfg ≠ "") (ts : TableApi.TableStore)
    (h : ts.createEntity ⟨"default", "u1", some "A", some "a@x.com", 0⟩ = .ok ()) :
    TableApi.tableStorageApi (some cfg) ts
      { method := "POST",
        body := { userId := some "u1", name := some "A", email := some "a@x.com" } } =
    ({ status := 201,
       body := .json (.obj [("message", .str "User created successfully"),
         ("user", .obj [("partitionKey", .str "default"), ("rowKey", .str "u1"),
                        ("name", .str "A"), ("email", .str "a@x.com"), ("age", .num 0)])]) },
     [.createTable, .createEntity ⟨"default", "u1", some "A", some "a@x.com", 0⟩]) := by
  simp [TableApi.tableStorageApi, TableApi.handlePostRequest, TableApi.buildUserEntity,
    TableApi.userEntityToJson, jsTruthy, jsNumOr, optField, hc, h,
    show toUpperCase "POST" = "POST" from rfl]

/-- Witness for C3 on a store whose create succeeds. -/
theorem table_post_defaults_department_and_age_witness :
    TableApi.tableStorageApi (some "c") tableStoreOk
      { method := "POST",
        body := { userId := some "u1", name := some "A", email := some "a@x.com" } } =
    ({ status := 201,
       body := .json (.obj [("message", .str "User created successfully"),
         ("user", .obj [("partitionKey", .str "default"), ("rowKey", .str "u1"),
                        ("name", .str "A"), ("email", .str "a@x.com"), ("age", .num 0)])]) },
     [.createTable, .createEntity ⟨"default", "u1", some "A", some "a@x.com", 0⟩]) :=
  table_post_defaults_department_and_age "c" (by decide) tableStoreOk rfl

/-- C5: a table POST whose create call throws (as a duplicate
(department, userId) key does) is not special-cased: the error
propagates to the generic outer error path and the response is a 500
carrying the underlying error message, not a 409. -/
theorem duplicate_create_propagates_as_500
    (cfg : String) (hc : cfg ≠ "") (ts : TableApi.TableStore)
    (treq : TableApi.TableRequest) (err : StoreErr)
    (hm : toUpperCase treq.method = "POST")
    (h1 : jsTruthy treq.body.userId = true)
    (h2 : jsTruthy treq.body.name = true)
    (h3 : jsTruthy treq.body.email = true)
    (herr : ts.createEntity (TableApi.buildUserEntity treq.body) = .error err) :
    (TableApi.tableStorageApi (some cfg) ts treq).1 =
      { status := 500,
        body := .json (.obj [("error", .str "Internal server error"),
                             ("details", .str err.message)]) } := by
  simp [TableApi.tableStorageApi, TableApi.handlePostRequest, hm, h1, h2, h3, herr,
    jsTruthy_some_of_ne cfg hc]

/-- Witness for C5: a store whose create throws a conflict error. -/
theorem duplicate_create_propagates_as_500_witness :
    (TableApi.tableStorageApi (some "c") tableStoreBoom
      { method := "POST",
        body := { userId := some "u1", name := some "A", email := some "a@x.com" } }).1 =
      { status := 500,
        body := .json (.obj [("error", .str "Internal server error"),
                             ("details", .str "boom")]) } :=
  duplicate_create_propagates_as_500 "c" (by decide) tableStoreBoom
    { method := "POST",
      body := { userId := some "u1", name := some "A", email := some "a@x.com" } }
    ⟨some 503, "boom"⟩ rfl rfl rfl rfl rfl

/-- C8: a table PUT whose body has a truthy `userId` but omits `name`
or `email` does not return 400: it builds the record with those
attributes undefined, performs the full-replace upsert of exactly that
record (so a prior stored record's name/email are erased under the
spec's replace semantics), and returns 200 with that record. -/
theorem put_without_name_email_upserts_undefined
    (cfg : String) (hc : cfg ≠ "") (ts : TableApi.TableStore)
    (treq : TableApi.TableRequest)
    (hm : toUpperCase treq.method = "PUT")
    (hu : jsTruthy treq.body.userId = true)
    (_hne : treq.body.name = none ∨ treq.body.email = none)
    (hup : ts.upsertEntity (TableApi.buildUserEntity treq.body) = .ok ()) :
    (TableApi.tableStorageApi (some cfg) ts treq).1 =
      { status := 200,
        body := .json (.obj [("message", .str "User updated successfully"),
          ("user", TableApi.userEntityToJson (TableApi.buildUserEntity treq.body))]) } ∧
    (TableApi.tableStorageApi (some cfg) ts treq).2 =
      [.createTable, .upsertEntityReplace (TableApi.buildUserEntity treq.body)] ∧
    (TableApi.buildUserEntity treq.body).name = treq.body.name ∧
    (TableApi.buildUserEntity treq.body).email = treq.body.email ∧
    ∀ st : TableApi.TableState,
      TableApi.applyTableOps st (TableApi.tableStorageApi (some cfg) ts treq).2
        ((TableApi.buildUserEntity treq.body).partitionKey,
         (TableApi.buildUserEntity treq.body).rowKey) =
      some (TableApi.buildUserEntity treq.body) := by
  refine ⟨?_, ?_, rfl, rfl, ?_⟩
  · simp [TableApi.tableStorageApi, TableApi.handlePutRequest, hm, hu, hup,
      jsTruthy_some_of_ne cfg hc]
  · simp [TableApi.tableStorageApi, TableApi.handlePutRequest, hm, hu, hup,
      jsTruthy_some_of_ne cfg hc]
  · intro st
    simp [TableApi.tableStorageApi, TableApi.handlePutRequest, hm, hu, hup,
      jsTruthy_some_of_ne cfg hc, TableApi.applyTableOps, TableApi.applyTableOp]

/-- Witness for C8: a PUT body with `userId` only. -/
theorem put_without_name_email_upserts_undefined_witness :
    (TableApi.tableStorageApi (some "c") tableStoreOk
      { method := "PUT", body := { userId := some "u1" } }).1 =
      { status := 200,
        body := .json (.obj [("message", .str "User updated successfully"),
          ("user", TableApi.userEntityToJson
            (TableApi.buildUserEntity { userId := some "u1" }))]) } ∧
    (TableApi.tableStorageApi (some "c") tableStoreOk
      { method := "PUT", body := { userId := some "u1" } }).2 =
      [.createTable, .upsertEntityReplace (TableApi.buildUserEntity { userId := some "u1" })] ∧
    (TableApi.buildUserEntity ({ userId := some "u1" } : TableApi.TableBody)).name = none ∧
    (TableApi.buildUserEntity ({ userId := some "u1" } : TableApi.TableBody)).email = none ∧
    ∀ st : TableApi.TableState,
      TableApi.applyTableOps st (TableApi.tableStorageApi (some "c") tableStoreOk
          { method := "PUT", body := { userId := some "u1" } }).2
        ((TableApi.buildUserEntity ({ userId := some "u1" } : TableApi.TableBody)).partitionKey,
         (TableApi.buildUserEntity ({ userId := some "u1" } : TableApi.TableBody)).rowKey) =
      some (TableApi.buildUserEntity { userId := some "u1" }) :=
  put_without_name_email_upserts_undefined "c" (by decide) tableStoreOk
    { method := "PUT", body := { userId := some "u1" } } rfl rfl (Or.inl rfl) rfl

/-- C10: a blob GET whose download call succeeds but yields no readable
stream body returns 404 with `{error: "Blob not found or empty"}`. -/
theorem download_without_stream_body_returns_404
    (cfg : String) (hc : cfg ≠ "") (bs : BlobApi.BlobStore)
    (breq : BlobApi.BlobRequest) (bn : String)
    (hm : toUpperCase breq.method = "GET") (hb : breq.blobName = some bn) (hbn : bn ≠ "")
    (hd : bs.download bn = .ok ⟨none⟩) :
    (BlobApi.blobStorageApi (some cfg) bs breq).1 =
      { status := 404, body := .json (.obj [("error", .str "Blob not found or empty")]) } := by
  simp [BlobApi.blobStorageApi, BlobApi.handleGetRequest, hm, hb, hbn, hd, hc, jsTruthy]

/-- Witness for C10: a store whose download yields no stream body. -/
theorem download_without_stream_body_returns_404_witness :
    (BlobApi.blobStorageApi (some "c") blobStoreNoStream
      { method := "GET", blobName := some "doc.txt" }).1 =
      { status := 404, body := .json (.obj [("error", .str "Blob not found or empty")]) } :=
  download_without_stream_body_returns_404 "c" (by decide) blobStoreNoStream
    { method := "GET", blobName := some "doc.txt" } "doc.txt" rfl rfl (by decide) rfl

/-- C4: for blob GET-with-blobName, blob DELETE, table GET-with-userId
and table DELETE, a store call that throws with statusCode 404 is
translated to HTTP 404 with an error body, while a store error with any
other statusCode is not translated there and instead reaches the outer
500 path, which returns 500 with the underlying message. -/
theorem store_not_found_maps_to_404_else_propagates
    (cfg : String) (hc : cfg ≠ "")
    (bs : BlobApi.BlobStore) (ts : TableApi.TableStore)
    (breq : BlobApi.BlobRequest) (treq : TableApi.TableRequest) (e : StoreErr) :
    (toUpperCase breq.method = "GET" → ∀ bn, breq.blobName = some bn → bn ≠ "" →
      bs.download bn = .error e →
      (e.statusCode = some 404 →
        (BlobApi.blobStorageApi (some cfg) bs breq).1 =
          { status := 404, body := .json (.obj [("error", .str "Blob not found")]) }) ∧
      (e.statusCode ≠ some 404 →
        (BlobApi.blobStorageApi (some cfg) bs breq).1 =
          { status := 500, body := .json (.obj [("error", .str "Internal server error"),
                                                ("details", .str e.message)]) })) ∧
    (toUpperCase breq.method = "DELETE" → ∀ bn, breq.blobName = some bn → bn ≠ "" →
      bs.delete bn = .error e →
      (e.statusCode = some 404 →
        (BlobApi.blobStorageApi (some cfg) bs breq).1 =
          { status := 404, body := .json (.obj [("error", .str "Blob not found")]) }) ∧
      (e.statusCode ≠ some 404 →
        (BlobApi.blobStorageApi (some cfg) bs breq).1 =
          { status := 500, body := .json (.obj [("error", .str "Internal server error"),
                                                ("details", .str e.message)]) })) ∧
    (toUpperCase treq.method = "GET" → ∀ uid, treq.userId = some uid → uid ≠ "" →
      ts.getEntity (jsOr treq.department "default") uid = .error e →
      (e.statusCode = some 404 →
        (TableApi.tableStorageApi (some cfg) ts treq).1 =
          { status := 404, body := .json (.obj [("error", .str "User not found")]) }) ∧
      (e.statusCode ≠ some 404 →
        (TableApi.tableStorageApi (some cfg) ts treq).1 =
          { status := 500, body := .json (.obj [("error", .str "Internal server error"),
                                                ("details", .str e.message)]) })) ∧
    (toUpperCase treq.method = "DELETE" → ∀ uid, treq.userId = some uid → uid ≠ "" →
      ts.deleteEntity (jsOr treq.department "default") uid = .error e →
      (e.statusCode = some 404 →
        (TableApi.tableStorageApi (some cfg) ts treq).1 =
          { status := 404, body := .json (.obj [("error", .str "User not found")]) }) ∧
      (e.statusCode ≠ some 404 →
        (TableApi.tableStorageApi (some cfg) ts treq).1 =
          { status := 500, body := .json (.obj [("error", .str "Internal server error"),
                                                ("details", .str e.message)]) })) := by
  refine ⟨fun hm bn hb hbn hcall => ⟨fun h404 => ?_, fun hno => ?_⟩,
          fun hm bn hb hbn hcall => ⟨fun h404 => ?_, fun hno => ?_⟩,
          fun hm uid hb hbn hcall => ⟨fun h404 => ?_, fun hno => ?_⟩,
          fun hm uid hb hbn hcall => ⟨fun h404 => ?_, fun hno => ?_⟩⟩
  · simp [BlobApi.blobStorageApi, BlobApi.handleGetRequest, hm, hb, hbn, hcall, h404, hc, jsTruthy]
  · simp [BlobApi.blobStorageApi, BlobApi.handleGetRequest, hm, hb, hbn, hcall, hno, hc, jsTruthy]
  · simp [BlobApi.blobStorageApi, BlobApi.handleDeleteRequest, hm, hb, hbn, hcall, h404, hc, jsTruthy]
  · simp [BlobApi.blobStorageApi, BlobApi.handleDeleteRequest, hm, hb, hbn, hcall, hno, hc, jsTruthy]
  · simp [TableApi.tableStorageApi, TableApi.handleGetRequest, hm, hb, hbn, hcall, h404, hc, jsTruthy]
  · simp [TableApi.tableStorageApi, TableApi.handleGetRequest, hm, hb, hbn, hcall, hno, hc, jsTruthy]
  · simp [TableApi.tableStorageApi, TableApi.handleDeleteRequest, hm, hb, hbn, hcall, h404, hc, jsTruthy]
  · simp [TableApi.tableStorageApi, TableApi.handleDeleteRequest, hm, hb, hbn, hcall, hno, hc, jsTruthy]

/-- Witness for C4: stores throwing a 404-coded and a 503-coded error
on each of the four operations. -/
theorem store_not_found_maps_to_404_else_propagates_witness :
    (BlobApi.blobStorageApi (some "c") blobStore404
      { method := "GET", blobName := some "b" }).1 =
      { status := 404, body := .json (.obj [("error", .str "Blob not found")]) } ∧
    (BlobApi.blobStorageApi (some "c") blobStoreBoom
      { method := "GET", blobName := some "b" }).1 =
      { status := 500, body := .json (.obj [("error", .str "Internal server error"),
                                            ("details", .str "boom")]) } ∧
    (BlobApi.blobStorageApi (some "c") blobStore404
      { method := "DELETE", blobName := some "b" }).1 =
      { status := 404, body := .json (.obj [("error", .str "Blob not found")]) } ∧
    (BlobApi.blobStorageApi (some "c") blobStoreBoom
      { method := "DELETE", blobName := some "b" }).1 =
      { status := 500, body := .json (.obj [("error", .str "Internal server error"),
                                            ("details", .str "boom")]) } ∧
    (TableApi.tableStorageApi (some "c") tableStore404
      { method := "GET", userId := some "u1" }).1 =
      { status := 404, body := .json (.obj [("error", .str "User not found")]) } ∧
    (TableApi.tableStorageApi (some "c") tableStoreBoom
      { method := "GET", userId := some "u1" }).1 =
      { status := 500, body := .json (.obj [("error", .str "Internal server error"),
                                            ("details", .str "boom")]) } ∧
    (TableApi.tableStorageApi (some "c") tableStore404
      { method := "DELETE", userId := some "u1" }).1 =
      { status := 404, body := .json (.obj [("error", .str "User not found")]) } ∧
    (TableApi.tableStorageApi (some "c") tableStoreBoom
      { method := "DELETE", userId := some "u1" }).1 =
      { status := 500, body := .json (.obj [("error", .str "Internal server error"),
                                            ("details", .str "boom")]) } :=
  ⟨((store_not_found_maps_to_404_else_propagates "c" (by decide) blobStore404 tableStore404
      { method := "GET", blobName := some "b" } { method := "GET" }
      ⟨some 404, "Not Found"⟩).1 rfl "b" rfl (by decide) rfl).1 rfl,
   ((store_not_found_maps_to_404_else_propagates "c" (by decide) blobStoreBoom tableStoreBoom
      { method := "GET", blobName := some "b" } { method := "GET" }
      ⟨some 503, "boom"⟩).1 rfl "b" rfl (by decide) rfl).2 (by decide),
   ((store_not_found_maps_to_404_else_propagates "c" (by decide) blobStore404 tableStore404
      { method := "DELETE", blobName := some "b" } { method := "GET" }
      ⟨some 404, "Not Found"⟩).2.1 rfl "b" rfl (by decide) rfl).1 rfl,
   ((store_not_found_maps_to_404_else_propagates "c" (by decide) blobStoreBoom tableStoreBoom
      { method := "DELETE", blobName := some "b" } { method := "GET" }
      ⟨some 503, "boom"⟩).2.1 rfl "b" rfl (by decide) rfl).2 (by decide),
   ((store_not_found_maps_to_404_else_propagates "c" (by decide) blobStore404 tableStore404
      { method := "GET" } { method := "GET", userId := some "u1" }
      ⟨some 404, "Not Found"⟩).2.2.1 rfl "u1" rfl (by decide) rfl).1 rfl,
   ((store_not_found_maps_to_404_else_propagates "c" (by decide) blobStoreBoom tableStoreBoom
      { method := "GET" } { method := "GET", userId := some "u1" }
      ⟨some 503, "boom"⟩).2.2.1 rfl "u1" rfl (by decide) rfl).2 (by decide),
   ((store_not_found_maps_to_404_else_propagates "c" (by decide) blobStore404 tableStore404
      { method := "GET" } { method := "DELETE", userId := some "u1" }
      ⟨some 404, "Not Found"⟩).2.2.2 rfl "u1" rfl (by decide) rfl).1 rfl,
   ((store_not_found_maps_to_404_else_propagates "c" (by decide) blobStoreBoom tableStoreBoom
      { method := "GET" } { method := "DELETE", userId := some "u1" }
      ⟨some 503, "boom"⟩).2.2.2 rfl "u1" rfl (by decide) rfl).2 (by decide)⟩

theorem blobGet_body_ok (req : BlobApi.BlobRequest) (store : BlobApi.BlobStore)
    (r : HttpResponse) (h : (BlobApi.handleGetRequest req store).1 = .ok r) :
    (∀ b, r.body = Body.bytes b → r.status = 200) ∧
    (∀ j, r.body = .json j → j.hasErrorOrMessage = true ∨ r.status = 200) := by
  unfold BlobApi.handleGetRequest at h
  dsimp only at h
  split at h
  · split at h
    · split at h
      · simp at h
        subst h
        exact ⟨fun b hb => by simp at hb, fun j hj => by cases hj; exact Or.inl rfl⟩
      · simp at h
    · split at h
      · simp at h
        subst h
        exact ⟨fun b hb => by simp at hb, fun j hj => by cases hj; exact Or.inl rfl⟩
      · split at h
        · split at h
          · simp at h
            subst h
            exact ⟨fun b hb => by simp at hb, fun j hj => by cases hj; exact Or.inl rfl⟩
          · simp at h
        · simp at h
          subst h
          exact ⟨fun b hb => rfl, fun j hj => by simp at hj⟩
  · simp at h
    subst h
    exact ⟨fun b hb => by simp at hb, fun j hj => Or.inr rfl⟩

theorem blobPost_body_flagged (req : BlobApi.BlobRequest) (store : BlobApi.BlobStore)
    (r : HttpResponse) (h : (BlobApi.handlePostRequest req store).1 = .ok r) :
    ∃ j, r.body = .json j ∧ j.hasErrorOrMessage = true := by
  unfold BlobApi.handlePostRequest at h
  dsimp only at h
  split at h
  · simp at h
    subst h
    exact ⟨_, rfl, rfl⟩
  · split at h
    · simp at h
      subst h
      exact ⟨_, rfl, rfl⟩
    · simp at h

theorem blobDelete_body_flagged (req : BlobApi.BlobRequest) (store : BlobApi.BlobStore)
    (r : HttpResponse) (h : (BlobApi.handleDeleteRequest req store).1 = .ok r) :
    ∃ j, r.body = .json j ∧ j.hasErrorOrMessage = true := by
  unfold BlobApi.handleDeleteRequest at h
  dsimp only at h
  split at h
  · simp at h
    subst h
    exact ⟨_, rfl, rfl⟩
  · split at h
    · simp at h
      subst h
      exact ⟨_, rfl, rfl⟩
    · split at h
      · simp at h
        subst h
        exact ⟨_, rfl, rfl⟩
      · simp at h

theorem tableGet_body_ok (req : TableApi.TableRequest) (store : TableApi.TableStore)
    (r : HttpResponse) (h : (TableApi.handleGetRequest req store).1 = .ok r) :
    ∃ j, r.body = .json j ∧ (j.hasErrorOrMessage = true ∨ r.status = 200) := by
  unfold TableApi.handleGetRequest at h
  dsimp only at h
  split at h
  · split at h
    · simp at h
      subst h
      exact ⟨_, rfl, Or.inr rfl⟩
    · split at h
      · simp at h
        subst h
        exact ⟨_, rfl, Or.inl rfl⟩
      · simp at h
  · simp at h
    subst h
    exact ⟨_, rfl, Or.inr rfl⟩

theorem tablePost_body_flagged (req : TableApi.TableRequest) (store : TableApi.TableStore)
    (r : HttpResponse) (h : (TableApi.handlePostRequest req store).1 = .ok r) :
    ∃ j, r.body = .json j ∧ j.hasErrorOrMessage = true := by
  unfold TableApi.handlePostRequest at h
  dsimp only at h
  split at h
  · simp at h
    subst h
    exact ⟨_, rfl, rfl⟩
  · split at h
    · simp at h
      subst h
      exact ⟨_, rfl, rfl⟩
    · simp at h

theorem tablePut_body_flagged (req : TableApi.TableRequest) (store : TableApi.TableStore)
    (r : HttpResponse) (h : (TableApi.handlePutRequest req store).1 = .ok r) :
    ∃ j, r.body = .json j ∧ j.hasErrorOrMessage = true := by
  unfold TableApi.handlePutRequest at h
  dsimp only at h
  split at h
  · simp at h
    subst h
    exact ⟨_, rfl, rfl⟩
  · split at h
    · simp at h
      subst h
      exact ⟨_, rfl, rfl⟩
    · simp at h

theorem tableDelete_body_flagged (req : TableApi.TableRequest) (store : TableApi.TableStore)
    (r : HttpResponse) (h : (TableApi.handleDeleteRequest req store).1 = .ok r) :
    ∃ j, r.body = .json j ∧ j.hasErrorOrMessage = true := by
  unfold TableApi.handleDeleteRequest at h
  dsimp only at h
  split at h
  · simp at h
    subst h
    exact ⟨_, rfl, rfl⟩
  · split at h
    · simp at h
      subst h
      exact ⟨_, rfl, rfl⟩
    · split at h
      · simp at h
        subst h
        exact ⟨_, rfl, rfl⟩
      · simp at h

theorem blob_response_cases (cfg : Option String) (bs : BlobApi.BlobStore)
    (breq : BlobApi.BlobRequest) :
    (∃ j, (BlobApi.blobStorageApi cfg bs breq).1.body = .json j ∧
       (j.hasErrorOrMessage = true ∨
        ((BlobApi.blobStorageApi cfg bs breq).1.status = 200 ∧ toUpperCase breq.method = "GET"))) ∨
    (∃ b, (BlobApi.blobStorageApi cfg bs breq).1.body = Body.bytes b ∧
       (BlobApi.blobStorageApi cfg bs breq).1.status = 200 ∧ toUpperCase breq.method = "GET") := by
  unfold BlobApi.blobStorageApi
  dsimp only
  cases hcfg : jsTruthy cfg
  · simp only [hcfg, Bool.not_false, if_pos]
    exact Or.inl ⟨_, rfl, Or.inl rfl⟩
  · simp only [hcfg, Bool.not_true, Bool.false_eq_true, if_false]
    cases hmg : toUpperCase breq.method == "GET"
    · simp only [hmg, Bool.false_eq_true, if_false]
      cases hmp : toUpperCase breq.method == "POST"
      · simp only [hmp, Bool.false_eq_true, if_false]
        cases hmd : toUpperCase breq.method == "DELETE"
        · simp only [hmd, Bool.false_eq_true, if_false]
          exact Or.inl ⟨_, rfl, Or.inl rfl⟩
        · simp only [hmd, if_true]
          rcases hD : (BlobApi.handleDeleteRequest breq bs).1 with e | r
          · simp only [hD]
            exact Or.inl ⟨_, rfl, Or.inl rfl⟩
          · simp only [hD]
            obtain ⟨j, hj, hflag⟩ := blobDelete_body_flagged breq bs r hD
            exact Or.inl ⟨j, hj, Or.inl hflag⟩
      · simp only [hmp, if_true]
        rcases hP : (BlobApi.handlePostRequest breq bs).1 with e | r
        · simp only [hP]
          exact Or.inl ⟨_, rfl, Or.inl rfl⟩
        · simp only [hP]
          obtain ⟨j, hj, hflag⟩ := blobPost_body_flagged breq bs r hP
          exact Or.inl ⟨j, hj, Or.inl hflag⟩
    · simp only [hmg, if_true]
      rcases hG : (BlobApi.handleGetRequest breq bs).1 with e | r
      · simp only [hG]
        exact Or.inl ⟨_, rfl, Or.inl rfl⟩
      · simp only [hG]
        obtain ⟨hbytes, hjson⟩ := blobGet_body_ok breq bs r hG
        cases hrb : r.body with
        | json j =>
          exact Or.inl ⟨j, rfl, (hjson j hrb).imp id fun h200 => ⟨h200, eq_of_beq hmg⟩⟩
        | bytes b =>
          exact Or.inr ⟨b, rfl, hbytes b hrb, eq_of_beq hmg⟩

theorem table_response_cases (cfg : Option String) (ts : TableApi.TableStore)
    (treq : TableApi.TableRequest) :
    ∃ j, (TableApi.tableStorageApi cfg ts treq).1.body = .json j ∧
      (j.hasErrorOrMessage = true ∨
       ((TableApi.tableStorageApi cfg ts treq).1.status = 200 ∧
        toUpperCase treq.method = "GET")) := by
  unfold TableApi.tableStorageApi
  dsimp only
  cases hcfg : jsTruthy cfg
  · simp only [hcfg, Bool.not_false, if_pos]
    exact ⟨_, rfl, Or.inl rfl⟩
  · simp only [hcfg, Bool.not_true, Bool.false_eq_true, if_false]
    cases hmg : toUpperCase treq.method == "GET"
    · simp only [hmg, Bool.false_eq_true, if_false]
      cases hmp : toUpperCase treq.method == "POST"
      · simp only [hmp, Bool.false_eq_true, if_false]
        cases hmu : toUpperCase treq.method == "PUT"
        · simp only [hmu, Bool.false_eq_true, if_false]
          cases hmd : toUpperCase treq.method == "DELETE"
          · simp only [hmd, Bool.false_eq_true, if_false]
            exact ⟨_, rfl, Or.inl rfl⟩
          · simp only [hmd, if_true]
            rcases hD : (TableApi.handleDeleteRequest treq ts).1 with e | r
            · simp only [hD]
              exact ⟨_, rfl, Or.inl rfl⟩
            · simp only [hD]
              obtain ⟨j, hj, hflag⟩ := tableDelete_body_flagged treq ts r hD
              exact ⟨j, hj, Or.inl hflag⟩
        · simp only [hmu, if_true]
          rcases hU : (TableApi.handlePutRequest treq ts).1 with e | r
          · simp only [hU]
            exact ⟨_, rfl, Or.inl rfl⟩
          · simp only [hU]
            obtain ⟨j, hj, hflag⟩ := tablePut_body_flagged treq ts r hU
            exact ⟨j, hj, Or.inl hflag⟩
      · simp only [hmp, if_true]
        rcases hP : (TableApi.handlePostRequest treq ts).1 with e | r
        · simp only [hP]
          exact ⟨_, rfl, Or.inl rfl⟩
        · simp only [hP]
          obtain ⟨j, hj, hflag⟩ := tablePost_body_flagged treq ts r hP
          exact ⟨j, hj, Or.inl hflag⟩
    · simp only [hmg, if_true]
      rcases hG : (TableApi.handleGetRequest treq ts).1 with e | r
      · simp only [hG]
        exact ⟨_, rfl, Or.inl rfl⟩
      · simp only [hG]
        obtain ⟨j, hj, hor⟩ := tableGet_body_ok treq ts r hG
        exact ⟨j, hj, hor.imp id fun h200 => ⟨h200, eq_of_beq hmg⟩⟩

/-- C2 counterexample: the 200 response to a table GET without
`userId` (department listing) has the JSON body `{users, count}`,
which contains neither an `error` nor a `message` field, refuting the
claim that every non-byte response body carries one of them. -/
theorem every_body_has_error_or_message_counterexample :
    (TableApi.tableStorageApi (some "c") tableStoreOk { method := "GET" }).1.body =
      .json (.obj [("users", .arr []), ("count", .num 0)]) ∧
    Json.hasErrorOrMessage (.obj [("users", .arr []), ("count", .num 0)]) = false :=
  ⟨rfl, rfl⟩

/-- C2 amended: every response body of either endpoint except the blob
GET byte body is JSON, and each such JSON body either contains an
`error` or `message` field or is the 200 body of a GET request (blob
listing, table single-record fetch, table department listing); byte
bodies occur only as blob GET 200 responses. -/
theorem response_bodies_json_error_message_or_get_success
    (cfg : Option String) (bs : BlobApi.BlobStore) (ts : TableApi.TableStore)
    (breq : BlobApi.BlobRequest) (treq : TableApi.TableRequest) :
    ((∃ j, (BlobApi.blobStorageApi cfg bs breq).1.body = .json j ∧
        (j.hasErrorOrMessage = true ∨
         ((BlobApi.blobStorageApi cfg bs breq).1.status = 200 ∧
          toUpperCase breq.method = "GET"))) ∨
     (∃ b, (BlobApi.blobStorageApi cfg bs breq).1.body = Body.bytes b ∧
        (BlobApi.blobStorageApi cfg bs breq).1.status = 200 ∧
        toUpperCase breq.method = "GET")) ∧
    (∃ j, (TableApi.tableStorageApi cfg ts treq).1.body = .json j ∧
       (j.hasErrorOrMessage = true ∨
        ((TableApi.tableStorageApi cfg ts treq).1.status = 200 ∧
         toUpperCase treq.method = "GET"))) :=
  ⟨blob_response_cases cfg bs breq, table_response_cases cfg ts treq⟩

end AzurePlayground
